import Mathlib

/-!
Shallow embedding of the reservation availability and booking workflow of
`src/lib/supabase/reservations.ts`.

The remote database is modelled as an explicit `DB` value; every operation
of the source becomes a pure function from a `DB` (plus its arguments) to a
result together with the successor `DB`.  The record shapes come from the
reservation types module (the "Reservation Type Definitions" section of
`src/app/dashboard/page.tsx`, lines 22-148, which holds the types that
`reservations.ts` imports from `@/types/reservation`) and from
`src/types/restaurant.ts`.  JavaScript truthiness of the source
(`x || y`, `if (x)`) is modelled explicitly by the `js*` / `truthy*` helpers.
-/

namespace FillsinChatbot

/-- The `ReservationStatus` union of the reservation types module
(`src/app/dashboard/page.tsx` lines 32-37): `'pending' | 'confirmed' |
'cancelled' | 'completed' | 'no-show'`. -/
inductive ReservationStatus
  | pending
  | confirmed
  | cancelled
  | completed
  | noShow
deriving DecidableEq, Repr

/-- The `Reservation` interface of the reservation types module
(`src/app/dashboard/page.tsx` lines 42-69), in source field order.  The
nullable `guest_email` / `special_requests` (`string | null`) become
`Option String`; dates and times stay the ISO strings the source passes
around.  The defaults stand for the store-generated column values
(notification flags start false, timestamps are store-set). -/
structure Reservation where
  id : String
  restaurant_id : String
  reservation_date : String
  reservation_time : String
  party_size : Int
  guest_name : String
  guest_phone : String
  guest_email : Option String := none
  special_requests : Option String := none
  status : ReservationStatus
  confirmation_sent : Bool := false
  reminder_sent : Bool := false
  created_at : String := ""
  updated_at : String := ""
deriving DecidableEq, Repr

/-- The slice of the `Restaurant` row (`src/types/restaurant.ts` lines
35-59) that the availability workflow reads: the lookup key `id` and the
nullable capacity `total_seats : number | null`.  `checkAvailability`
selects exactly these columns (`select('total_seats').eq('id', ...)`);
no other restaurant column is ever read by `reservations.ts`. -/
structure Restaurant where
  id : String
  total_seats : Option Int
deriving DecidableEq, Repr

/-- The remote store state: the `restaurants` and `reservations` tables. -/
structure DB where
  restaurants : List Restaurant
  reservations : List Reservation
deriving DecidableEq, Repr

/-- The `AvailabilityCheck` interface (`src/app/dashboard/page.tsx` lines
86-91), destructured as `const { date, time, party_size, restaurant_id } =
check` by `checkAvailability`. -/
structure AvailabilityCheck where
  date : String
  time : String
  party_size : Int
  restaurant_id : String
deriving DecidableEq, Repr

/-- The `AvailabilityResult` interface (`src/app/dashboard/page.tsx` lines
93-98): `available` plus the optional `reason`, `current_bookings` and
`total_seats` fields. -/
structure AvailabilityResult where
  available : Bool
  reason : Option String := none
  current_bookings : Option Int := none
  total_seats : Option Int := none
deriving DecidableEq, Repr

/-- JavaScript `x || 0` on a nullable number: `null` and `0` both give `0`
(source line `const totalSeats = restaurant.total_seats || 0`). -/
def jsOrZero : Option Int → Int
  | none => 0
  | some n => n

/-- JavaScript `s || d` on an optional string: `undefined` and the empty
string are falsy and fall back to `d`. -/
def jsOrString (o : Option String) (d : String) : String :=
  match o with
  | none => d
  | some s => if s == "" then d else s

/-- JavaScript `n || d` on an optional number: `undefined` and `0` are falsy
and fall back to `d`. -/
def jsOrInt (o : Option Int) (d : Int) : Int :=
  match o with
  | none => d
  | some n => if n == 0 then d else n

/-- JavaScript truthiness of an optional string field. -/
def truthyStr : Option String → Bool
  | none => false
  | some s => s != ""

/-- JavaScript truthiness of an optional number field. -/
def truthyInt : Option Int → Bool
  | none => false
  | some n => n != 0

/-- Model of `supabase.from('restaurants').select('total_seats').eq('id', rid).single()`. -/
def findRestaurant (db : DB) (rid : String) : Option Restaurant :=
  db.restaurants.find? (fun r => r.id == rid)

/-- Whether a reservation row matches the slot query of `checkAvailability`:
`.eq('restaurant_id', rid).eq('reservation_date', date)
 .eq('reservation_time', time).neq('status', 'cancelled')`. -/
def matchesSlot (rid date time : String) (r : Reservation) : Bool :=
  r.restaurant_id == rid && r.reservation_date == date &&
    r.reservation_time == time && r.status != ReservationStatus.cancelled

/-- The rows returned by the slot query of `checkAvailability`. -/
def slotReservations (db : DB) (rid date time : String) : List Reservation :=
  db.reservations.filter (matchesSlot rid date time)

/-- Model of `const totalBooked = existingReservations.reduce((sum, res) => sum + res.party_size, 0)`. -/
def totalBookedAt (db : DB) (rid date time : String) : Int :=
  ((slotReservations db rid date time).map (fun r => r.party_size)).sum

/-- The literal reason string built by `checkAvailability` when the slot is
full: `Not enough seats available. ${totalSeats - totalBooked} seats remaining.`. -/
def notEnoughSeatsMsg (remaining : Int) : String :=
  "Not enough seats available. " ++ toString remaining ++ " seats remaining."

/-- Function `checkAvailability` of `src/lib/supabase/reservations.ts` (lines 29-89):
look up the restaurant's capacity, sum the party sizes of the non-cancelled
reservations at the (restaurant, date, time) slot, and compare. -/
def checkAvailability (db : DB) (check : AvailabilityCheck) : AvailabilityResult :=
  match findRestaurant db check.restaurant_id with
  | none =>
    { available := false, reason := some "Restaurant not found" }
  | some restaurant =>
    let totalBooked := totalBookedAt db check.restaurant_id check.date check.time
    let newTotal := totalBooked + check.party_size
    let totalSeats := jsOrZero restaurant.total_seats
    if newTotal > totalSeats then
      { available := false
        reason := some (notEnoughSeatsMsg (totalSeats - totalBooked))
        current_bookings := some totalBooked
        total_seats := some totalSeats }
    else
      { available := true
        current_bookings := some totalBooked
        total_seats := some totalSeats }

/-- The `CreateReservationInput` type (`src/app/dashboard/page.tsx` lines
103-112): the required slot and guest fields plus the optional
`guest_email` / `special_requests`. -/
structure CreateReservationInput where
  restaurant_id : String
  reservation_date : String
  reservation_time : String
  party_size : Int
  guest_name : String
  guest_phone : String
  guest_email : Option String := none
  special_requests : Option String := none
deriving DecidableEq, Repr

/-- The availability check `createReservation` builds from its input. -/
def createCheckOf (input : CreateReservationInput) : AvailabilityCheck :=
  { date := input.reservation_date
    time := input.reservation_time
    party_size := input.party_size
    restaurant_id := input.restaurant_id }

/-- The row inserted by `createReservation`:
`insert({ ...input, status: 'confirmed' })`.  The store generates the row
identifier (taken here as the `newId` argument); the notification flags and
timestamps are filled by the store's column defaults, modelled by the
`Reservation` structure defaults. -/
def newReservationOf (input : CreateReservationInput) (newId : String) : Reservation :=
  { id := newId
    restaurant_id := input.restaurant_id
    reservation_date := input.reservation_date
    reservation_time := input.reservation_time
    party_size := input.party_size
    guest_name := input.guest_name
    guest_phone := input.guest_phone
    guest_email := input.guest_email
    special_requests := input.special_requests
    status := ReservationStatus.confirmed }

/-- Result of `createReservation` / `updateReservation`
(`{ data, error }`), together with the successor store state. -/
structure MutationResult where
  db : DB
  data : Option Reservation
  error : Option String
deriving DecidableEq, Repr

/-- Function `createReservation` of `src/lib/supabase/reservations.ts` (lines 99-140):
check availability first; on failure return the unavailability reason
(`availability.reason || 'Reservation not available'`) without touching the
store, otherwise insert the row with status `'confirmed'`. -/
def createReservation (db : DB) (input : CreateReservationInput) (newId : String) :
    MutationResult :=
  let availability := checkAvailability db (createCheckOf input)
  if !availability.available then
    { db := db
      data := none
      error := some (jsOrString availability.reason "Reservation not available") }
  else
    let newRes := newReservationOf input newId
    { db := { db with reservations := db.reservations ++ [newRes] }
      data := some newRes
      error := none }

/-- Model of `getReservationById`: `.select('*').eq('id', id).single()`; `null` when
no row matches.  Row identifiers are the store's primary key, so at most one
row matches. -/
def getReservationById (db : DB) (id : String) : Option Reservation :=
  db.reservations.find? (fun r => r.id == id)

/-- The `UpdateReservationInput` type (`src/app/dashboard/page.tsx` lines
114-123), in source field order: every field of the patch is optional. -/
structure UpdateReservationInput where
  reservation_date : Option String := none
  reservation_time : Option String := none
  party_size : Option Int := none
  guest_name : Option String := none
  guest_phone : Option String := none
  guest_email : Option String := none
  special_requests : Option String := none
  status : Option ReservationStatus := none
deriving DecidableEq, Repr

/-- The guard of `updateReservation`:
`if (input.reservation_date || input.reservation_time || input.party_size)`.
JavaScript truthiness: an empty-string date/time or a party size of `0` does
NOT trigger the availability check. -/
def touchesSlotFields (input : UpdateReservationInput) : Bool :=
  truthyStr input.reservation_date || truthyStr input.reservation_time ||
    truthyInt input.party_size

/-- The merged availability check `updateReservation` builds:
`input.field || currentReservation.field` for date, time and party size. -/
def mergedCheckOf (input : UpdateReservationInput) (current : Reservation) :
    AvailabilityCheck :=
  { date := jsOrString input.reservation_date current.reservation_date
    time := jsOrString input.reservation_time current.reservation_time
    party_size := jsOrInt input.party_size current.party_size
    restaurant_id := current.restaurant_id }

/-- The row produced by `supabase.from('reservations').update(input)`: every
field present in the patch is written, the others keep their value.  (Unlike
the truthiness guard above, the store writes a present `party_size: 0` or an
empty string as given.) -/
def applyPatch (r : Reservation) (input : UpdateReservationInput) : Reservation :=
  { r with
    reservation_date := input.reservation_date.getD r.reservation_date
    reservation_time := input.reservation_time.getD r.reservation_time
    party_size := input.party_size.getD r.party_size
    status := input.status.getD r.status
    guest_name := input.guest_name.getD r.guest_name
    guest_phone := input.guest_phone.getD r.guest_phone
    guest_email := match input.guest_email with
      | some e => some e
      | none => r.guest_email
    special_requests := match input.special_requests with
      | some s => some s
      | none => r.special_requests }

/-- Modelled from the spec: the record store's `update` on an identifier that
matches no row yields a store-level failure (`NotFoundError`, spec section 6);
`.single()` surfaces it with the store's own message, which is distinct from
the source's literal `'Reservation not found'` string. -/
def noRowsUpdateMessage : String :=
  "JSON object requested, multiple (or no) rows returned"

/-- The unconditional write step of `updateReservation`:
`.update(input).eq('id', id).select().single()`.  When no row matches the
identifier, `.single()` produces a store error which the `catch` block turns
into a failure result. -/
def doUpdate (db : DB) (id : String) (input : UpdateReservationInput) :
    MutationResult :=
  match getReservationById db id with
  | none =>
    { db := db, data := none, error := some noRowsUpdateMessage }
  | some current =>
    { db := { db with
        reservations := db.reservations.map
          (fun r => if r.id == id then applyPatch r input else r) }
      data := some (applyPatch current input)
      error := none }

/-- Function `updateReservation` of `src/lib/supabase/reservations.ts` (lines 236-287):
when the patch carries a truthy date, time or party size, load the current
row (failing with `'Reservation not found'` when absent) and re-run the
availability check on the merged fields (failing with
`availability.reason || 'New time slot not available'` when unavailable);
then, or directly otherwise, apply the patch. -/
def updateReservation (db : DB) (id : String) (input : UpdateReservationInput) :
    MutationResult :=
  if touchesSlotFields input then
    match getReservationById db id with
    | none => { db := db, data := none, error := some "Reservation not found" }
    | some current =>
      let availability := checkAvailability db (mergedCheckOf input current)
      if !availability.available then
        { db := db
          data := none
          error := some (jsOrString availability.reason "New time slot not available") }
      else
        doUpdate db id input
  else
    doUpdate db id input

/-- Result of `cancelReservation` (`{ success, error }`), with the successor
store state. -/
structure CancelResult where
  db : DB
  success : Bool
  error : Option String
deriving DecidableEq, Repr

/-- Function `cancelReservation` of `src/lib/supabase/reservations.ts` (lines 296-317):
`.update({ status: 'cancelled' }).eq('id', id)` — an unconditional write that
succeeds whether or not any row matches (a zero-row update is no store
error). -/
def cancelReservation (db : DB) (id : String) : CancelResult :=
  { db := { db with
      reservations := db.reservations.map
        (fun r => if r.id == id then { r with status := ReservationStatus.cancelled } else r) }
    success := true
    error := none }

/-- Lexicographic comparison of two strings, character by character: the
order in which the record store compares the ISO `YYYY-MM-DD` date strings
of the `gte`/`lte` range filters (on such strings it agrees with date
order). -/
def charListLe : List Char → List Char → Bool
  | [], _ => true
  | _ :: _, [] => false
  | a :: as, b :: bs => if a = b then charListLe as bs else decide (a < b)

/-- String comparison used for the `gte`/`lte` date-range filters. -/
def strLe (a b : String) : Bool :=
  charListLe a.data b.data

/-- The `ReservationSummary` interface (`src/app/dashboard/page.tsx` lines
141-147). -/
structure ReservationSummary where
  total_reservations : Nat
  confirmed : Nat
  cancelled : Nat
  completed : Nat
  no_shows : Nat
  total_guests : Int
deriving DecidableEq, Repr

/-- The rows returned by the query of `getReservationSummary`:
`.eq('restaurant_id', rid)` plus the optional
`.gte('reservation_date', date_from)` / `.lte('reservation_date', date_to)`. -/
def summaryRows (db : DB) (rid : String) (date_from date_to : Option String) :
    List Reservation :=
  db.reservations.filter (fun r =>
    r.restaurant_id == rid &&
      (match date_from with
        | none => true
        | some d => strLe d r.reservation_date) &&
      (match date_to with
        | none => true
        | some d => strLe r.reservation_date d))

/-- The body of the `forEach` of `getReservationSummary`: add the row's
party size to `total_guests` and bump the bucket selected by the `switch`
(`confirmed` and `pending` share the `confirmed` bucket). -/
def summaryStep (s : ReservationSummary) (r : Reservation) : ReservationSummary :=
  let s := { s with total_guests := s.total_guests + r.party_size }
  match r.status with
  | ReservationStatus.confirmed => { s with confirmed := s.confirmed + 1 }
  | ReservationStatus.pending => { s with confirmed := s.confirmed + 1 }
  | ReservationStatus.cancelled => { s with cancelled := s.cancelled + 1 }
  | ReservationStatus.completed => { s with completed := s.completed + 1 }
  | ReservationStatus.noShow => { s with no_shows := s.no_shows + 1 }

/-- Function `getReservationSummary` of `src/lib/supabase/reservations.ts`
(lines 346-412). -/
def getReservationSummary (db : DB) (rid : String)
    (date_from date_to : Option String) : ReservationSummary :=
  let rows := summaryRows db rid date_from date_to
  rows.foldl summaryStep
    { total_reservations := rows.length
      confirmed := 0
      cancelled := 0
      completed := 0
      no_shows := 0
      total_guests := 0 }

/-- A sequential (non-overlapping) operation on the reservations table: a
whole `createReservation` call or a whole `cancelReservation` call. -/
inductive AtomicOp
  | create (input : CreateReservationInput) (newId : String)
  | cancel (id : String)
deriving DecidableEq, Repr

/-- Run one sequential operation and keep the successor store state. -/
def runAtomic (db : DB) : AtomicOp → DB
  | AtomicOp.create input newId => (createReservation db input newId).db
  | AtomicOp.cancel id => (cancelReservation db id).db

/-- Run a sequence of non-overlapping create/cancel calls. -/
def runAtomicOps (db : DB) (ops : List AtomicOp) : DB :=
  ops.foldl runAtomic db

/-- Whether a sequential operation is a create with a non-negative party
size (the data model requires party sizes to be positive integers). -/
def opPartyOk : AtomicOp → Bool
  | AtomicOp.create input _ => decide (0 ≤ input.party_size)
  | AtomicOp.cancel _ => true

/-- One scheduling event of concurrently running calls.  `createReservation`
performs its availability check (`await checkAvailability`) and its insert
(`await supabase...insert`) as two separate round-trips with no isolation
between them, so a concurrent schedule may interleave other events between
the two phases of one create call.  `k` names the in-flight call. -/
inductive Event
  | createCheck (k : Nat) (input : CreateReservationInput) (newId : String)
  | createInsert (k : Nat)
  | cancel (id : String)
deriving DecidableEq, Repr

/-- State of a concurrent schedule: the store plus the in-flight create
calls whose availability check already passed but whose insert has not yet
executed. -/
structure ConcState where
  db : DB
  inflight : List (Nat × CreateReservationInput × String)
deriving DecidableEq, Repr

/-- Run one scheduling event.  A `createCheck` evaluates `checkAvailability`
against the current store exactly as `createReservation` does (a failed check
makes the call return without inserting); a `createInsert` performs the
pending insert of a call whose check passed. -/
def runEvent (s : ConcState) : Event → ConcState
  | Event.createCheck k input newId =>
    let availability := checkAvailability s.db (createCheckOf input)
    if availability.available then
      { s with inflight := s.inflight ++ [(k, input, newId)] }
    else
      s
  | Event.createInsert k =>
    match s.inflight.find? (fun e => e.1 == k) with
    | none => s
    | some (_, input, newId) =>
      { db := { s.db with
          reservations := s.db.reservations ++ [newReservationOf input newId] }
        inflight := s.inflight.filter (fun e => e.1 != k) }
  | Event.cancel id =>
    { s with db := (cancelReservation s.db id).db }

/-- Run a concurrent schedule of events. -/
def runEvents (s : ConcState) (es : List Event) : ConcState :=
  es.foldl runEvent s

/-- The booked-seat sum of a list of reservation rows at a slot (the list
form of `totalBookedAt`, for reasoning about the table by induction). -/
def slotSum (rid date time : String) (l : List Reservation) : Int :=
  ((l.filter (matchesSlot rid date time)).map (fun r => r.party_size)).sum

/-- A 10-seat restaurant (the restaurant of the spec's scenarios). -/
def r10 : Restaurant :=
  { id := "r1", total_seats := some 10 }

/-- Reservation A of the spec's scenarios: a confirmed party of 6 at the
2025-11-22 19:00 slot of the 10-seat restaurant. -/
def resA6 : Reservation :=
  { id := "A"
    restaurant_id := "r1"
    reservation_date := "2025-11-22"
    reservation_time := "19:00"
    party_size := 6
    status := ReservationStatus.confirmed
    guest_name := "Ann"
    guest_phone := "555-0100" }

/-- Store holding the 10-seat restaurant and reservation A only. -/
def dbOne6 : DB :=
  { restaurants := [r10], reservations := [resA6] }

/-- Store holding the 10-seat restaurant and no reservations. -/
def dbTenEmpty : DB :=
  { restaurants := [r10], reservations := [] }

/-- An availability request for a party of 5 at reservation A's slot. -/
def checkFive : AvailabilityCheck :=
  { date := "2025-11-22", time := "19:00", party_size := 5, restaurant_id := "r1" }

/-- An availability request for a party of 0 (a non-positive party size). -/
def checkZero : AvailabilityCheck :=
  { date := "2025-11-22", time := "19:00", party_size := 0, restaurant_id := "r1" }

/-- A create request for a party of 6 at the scenario slot. -/
def createSix : CreateReservationInput :=
  { restaurant_id := "r1"
    reservation_date := "2025-11-22"
    reservation_time := "19:00"
    party_size := 6
    guest_name := "Guest Six"
    guest_phone := "555-0106" }

/-- A second create request for a party of 6 at the same slot. -/
def createSixB : CreateReservationInput :=
  { restaurant_id := "r1"
    reservation_date := "2025-11-22"
    reservation_time := "19:00"
    party_size := 6
    guest_name := "Guest Six B"
    guest_phone := "555-0107" }

/-- A create request for a party of 5 at the scenario slot. -/
def createFive : CreateReservationInput :=
  { restaurant_id := "r1"
    reservation_date := "2025-11-22"
    reservation_time := "19:00"
    party_size := 5
    guest_name := "Guest Five"
    guest_phone := "555-0105" }

/-- Two concurrent `createReservation` calls racing to fill the last seats
of the empty 10-seat restaurant: both availability checks run before either
insert, exactly the interleaving the source's two round-trips allow. -/
def raceSchedule : List Event :=
  [Event.createCheck 0 createSix "a"
   , Event.createCheck 1 createSixB "b"
   , Event.createInsert 0
   , Event.createInsert 1]

/-- The state after running the racing schedule on the empty 10-seat
restaurant. -/
def raceFinal : ConcState :=
  runEvents { db := dbTenEmpty, inflight := [] } raceSchedule

/-- A sequential (non-overlapping) sequence of create/cancel calls on the
scenario slot: create a party of 6, cancel it, create a party of 5. -/
def seqOps : List AtomicOp :=
  [AtomicOp.create createSix "a"
   , AtomicOp.cancel "a"
   , AtomicOp.create createFive "b"]

/-- A patch whose only slot field is a party size of 0: it mentions the
party size, but `0` is falsy in JavaScript. -/
def patchZero : UpdateReservationInput :=
  { party_size := some 0 }

/-- A patch raising the party size to 8. -/
def patchEight : UpdateReservationInput :=
  { party_size := some 8 }

/-- A patch lowering the party size to 4. -/
def patchFour : UpdateReservationInput :=
  { party_size := some 4 }

/-- A contact-detail-only patch (no date, time or party-size field). -/
def patchContact : UpdateReservationInput :=
  { guest_name := some "Zed" }

/-! Helper lemmas shared by several claims. -/

theorem notEnoughSeatsMsg_ne_empty (r : Int) : notEnoughSeatsMsg r ≠ "" := by
  intro h
  have h2 : (notEnoughSeatsMsg r).length = ("" : String).length := by rw [h]
  rw [notEnoughSeatsMsg, String.length_append, String.length_append] at h2
  have hx : ("Not enough seats available. " : String).length = 28 := by rfl
  have h0 : ("" : String).length = 0 := by rfl
  omega

theorem jsOrString_some_of_ne (s d : String) (h : s ≠ "") :
    jsOrString (some s) d = s := by
  simp [jsOrString, h]

theorem totalBookedAt_eq_slotSum (db : DB) (rid date time : String) :
    totalBookedAt db rid date time = slotSum rid date time db.reservations := rfl

theorem slotSum_nil (rid date time : String) : slotSum rid date time [] = 0 := rfl

theorem slotSum_cons (rid date time : String) (r : Reservation) (l : List Reservation) :
    slotSum rid date time (r :: l)
      = (if matchesSlot rid date time r then r.party_size else 0)
          + slotSum rid date time l := by
  by_cases h : matchesSlot rid date time r <;>
    simp [slotSum, List.filter_cons, h]

theorem slotSum_append (rid date time : String) (l1 l2 : List Reservation) :
    slotSum rid date time (l1 ++ l2)
      = slotSum rid date time l1 + slotSum rid date time l2 := by
  simp [slotSum, List.filter_append]

theorem totalBookedAt_nonneg (db : DB) (rid date time : String)
    (h : ∀ r ∈ db.reservations, 0 ≤ r.party_size) :
    0 ≤ totalBookedAt db rid date time := by
  apply List.sum_nonneg
  intro x hx
  rw [List.mem_map] at hx
  obtain ⟨r, hr, rfl⟩ := hx
  exact h r (List.mem_filter.mp hr).1

/-- Claim C3: for every existing restaurant, `checkAvailability` returns
`available = (currentBookings + partySize <= totalSeats)` where
`currentBookings` is the sum of `party_size` over the non-cancelled
reservations at the (restaurant, date, time) slot; when unavailable, the
reason reports the remaining capacity `totalSeats - currentBookings`. -/
theorem C3_availability_formula (db : DB) (check : AvailabilityCheck)
    (restaurant : Restaurant)
    (hfound : findRestaurant db check.restaurant_id = some restaurant) :
    (checkAvailability db check).available
        = decide (totalBookedAt db check.restaurant_id check.date check.time
            + check.party_size ≤ jsOrZero restaurant.total_seats)
      ∧ ((checkAvailability db check).available = false →
          (checkAvailability db check).reason
            = some (notEnoughSeatsMsg (jsOrZero restaurant.total_seats
                - totalBookedAt db check.restaurant_id check.date check.time)))
      ∧ (checkAvailability db check).current_bookings
          = some (totalBookedAt db check.restaurant_id check.date check.time)
      ∧ (checkAvailability db check).total_seats
          = some (jsOrZero restaurant.total_seats) := by
  unfold checkAvailability
  rw [hfound]
  dsimp only
  by_cases h : totalBookedAt db check.restaurant_id check.date check.time
      + check.party_size > jsOrZero restaurant.total_seats
  · rw [if_pos h]
    refine ⟨?_, fun _ => rfl, rfl, rfl⟩
    have : ¬ (totalBookedAt db check.restaurant_id check.date check.time
        + check.party_size ≤ jsOrZero restaurant.total_seats) := by omega
    simp [this]
  · rw [if_neg h]
    refine ⟨?_, fun hfalse => by simp at hfalse, rfl, rfl⟩
    have : totalBookedAt db check.restaurant_id check.date check.time
        + check.party_size ≤ jsOrZero restaurant.total_seats := by omega
    simp [this]

/-- Claim C3 scenario witness. -/
theorem C3_availability_formula_witness :
    findRestaurant dbOne6 checkFive.restaurant_id = some r10
      ∧ (checkAvailability dbOne6 checkFive).available = false
      ∧ (checkAvailability dbOne6 checkFive).reason = some (notEnoughSeatsMsg 4)
      ∧ (checkAvailability dbOne6 checkFive).current_bookings = some 6
      ∧ notEnoughSeatsMsg 4 = "Not enough seats available. 4 seats remaining." := by
  have h := C3_availability_formula dbOne6 checkFive r10 (by rfl)
  obtain ⟨hav, hreason, hcb, hts⟩ := h
  have havF : (checkAvailability dbOne6 checkFive).available = false := by
    rw [hav]; decide
  refine ⟨by rfl, havF, ?_, ?_, by decide⟩
  · have := hreason havF
    rw [this]; decide
  · rw [hcb]; decide

/-- Claim C5: a restaurant whose `total_seats` is zero or null accepts no
reservation: `checkAvailability` answers `available = false` for every
positive party size (party sizes stored in the table are non-negative, as
the data model requires). -/
theorem C5_zero_or_null_seats (db : DB) (check : AvailabilityCheck)
    (restaurant : Restaurant)
    (hfound : findRestaurant db check.restaurant_id = some restaurant)
    (hseats : restaurant.total_seats = none ∨ restaurant.total_seats = some 0)
    (hpos : 0 < check.party_size)
    (hnn : ∀ r ∈ db.reservations, 0 ≤ r.party_size) :
    (checkAvailability db check).available = false := by
  have hz : jsOrZero restaurant.total_seats = 0 := by
    rcases hseats with h | h <;> rw [h] <;> rfl
  have hbooked : 0 ≤ totalBookedAt db check.restaurant_id check.date check.time :=
    totalBookedAt_nonneg db check.restaurant_id check.date check.time hnn
  have hgt : totalBookedAt db check.restaurant_id check.date check.time
      + check.party_size > jsOrZero restaurant.total_seats := by
    rw [hz]; omega
  unfold checkAvailability
  rw [hfound]
  dsimp only
  rw [if_pos hgt]

/-- Claim C5 witness: a restaurant with null `total_seats` rejects a party
of 2. -/
theorem C5_zero_or_null_seats_witness :
    findRestaurant { restaurants := [{ id := "r0", total_seats := none }], reservations := [] } "r0"
        = some { id := "r0", total_seats := none }
      ∧ (checkAvailability { restaurants := [{ id := "r0", total_seats := none }], reservations := [] }
          { date := "2025-11-22", time := "19:00", party_size := 2, restaurant_id := "r0" }).available
        = false := by
  refine ⟨by rfl, ?_⟩
  exact C5_zero_or_null_seats _ _ { id := "r0", total_seats := none } (by rfl)
    (Or.inl rfl) (by decide) (by intro r hr; simp at hr)

/-- Claim C6 counterexample: `checkAvailability` does not fail with an
`InvalidInput` error on a non-positive party size — for a party of 0 on the
empty 10-seat restaurant it computes a normal availability result and even
answers `available = true`. -/
theorem C6_counterexample_party_zero_computes :
    (checkAvailability dbTenEmpty checkZero).available = true
      ∧ (checkAvailability dbTenEmpty checkZero).reason = none
      ∧ checkZero.party_size ≤ 0 := by
  refine ⟨by decide, by decide, by decide⟩

/-- Claim C6 amended: `checkAvailability` performs no party-size validation;
a party size `<= 0` flows into the normal capacity comparison, so whenever
the restaurant exists and its slot is not already over capacity the request
is even reported as available. -/
theorem C6_no_party_size_validation (db : DB) (check : AvailabilityCheck)
    (restaurant : Restaurant)
    (hfound : findRestaurant db check.restaurant_id = some restaurant)
    (hp : check.party_size ≤ 0)
    (hcap : totalBookedAt db check.restaurant_id check.date check.time
        ≤ jsOrZero restaurant.total_seats) :
    (checkAvailability db check).available = true := by
  have hle : ¬ (totalBookedAt db check.restaurant_id check.date check.time
      + check.party_size > jsOrZero restaurant.total_seats) := by omega
  unfold checkAvailability
  rw [hfound]
  dsimp only
  rw [if_neg hle]

/-- Claim C6 amended witness: the party-of-0 request on the empty 10-seat
restaurant is accepted. -/
theorem C6_no_party_size_validation_witness :
    checkZero.party_size ≤ 0
      ∧ totalBookedAt dbTenEmpty checkZero.restaurant_id checkZero.date checkZero.time ≤ 10
      ∧ (checkAvailability dbTenEmpty checkZero).available = true := by
  refine ⟨by decide, by decide, ?_⟩
  exact C6_no_party_size_validation dbTenEmpty checkZero r10 (by rfl) (by decide) (by decide)

/-- Claim C4: `createReservation` first runs the availability check on its
input's slot and party size; when the slot is unavailable it fails with the
unavailability reason and inserts nothing, and otherwise it appends exactly
one new row whose status is `'confirmed'`. -/
theorem C4_create_checks_then_inserts (db : DB) (input : CreateReservationInput)
    (newId : String) :
    if (checkAvailability db (createCheckOf input)).available then
      createReservation db input newId
          = { db := { db with reservations := db.reservations ++ [newReservationOf input newId] }
              data := some (newReservationOf input newId)
              error := none }
        ∧ (newReservationOf input newId).status = ReservationStatus.confirmed
    else
      createReservation db input newId
          = { db := db
              data := none
              error := some (jsOrString (checkAvailability db (createCheckOf input)).reason
                  "Reservation not available") } := by
  by_cases h : (checkAvailability db (createCheckOf input)).available
  · rw [if_pos h]
    exact ⟨by simp [createReservation, h], rfl⟩
  · rw [if_neg h]
    simp only [Bool.not_eq_true] at h
    simp [createReservation, h]

/-- Claim C8: `cancelReservation` is an unconditional transition of the
matching row's status to `cancelled`, it always reports success, and it is
idempotent: cancelling twice leaves the same store state as cancelling
once, with both calls succeeding. -/
theorem C8_cancel_idempotent (db : DB) (id : String) :
    (cancelReservation db id).success = true
      ∧ (cancelReservation db id).error = none
      ∧ (cancelReservation (cancelReservation db id).db id).success = true
      ∧ (cancelReservation (cancelReservation db id).db id).error = none
      ∧ (cancelReservation (cancelReservation db id).db id).db = (cancelReservation db id).db
      ∧ ((cancelReservation db id).db.reservations.all
          (fun r => r.id != id || r.status == ReservationStatus.cancelled)) = true := by
  refine ⟨rfl, rfl, rfl, rfl, ?_, ?_⟩
  · unfold cancelReservation
    dsimp only
    congr 1
    rw [List.map_map]
    apply List.map_congr_left
    intro a _
    by_cases ha : a.id == id
    · simp [Function.comp, ha]
    · simp [Function.comp, ha]
  · rw [List.all_eq_true]
    intro r hr
    unfold cancelReservation at hr
    dsimp only at hr
    rw [List.mem_map] at hr
    obtain ⟨a, _, rfl⟩ := hr
    by_cases ha : a.id == id
    · simp [ha]
    · simp only [ha, if_false, Bool.or_eq_true, bne_iff_ne, ne_eq]
      exact Or.inl (by simpa using ha)

/-- Claim C10: cancelling an identifier that matches no row still returns
`{ success: true, error: null }` and leaves the store unchanged — the
zero-row update raises no store error, so the caller cannot distinguish it
from cancelling an existing reservation. -/
theorem C10_cancel_missing_id_success (db : DB) (id : String)
    (h : db.reservations.all (fun r => r.id != id) = true) :
    cancelReservation db id = { db := db, success := true, error := none } := by
  unfold cancelReservation
  have hmap : db.reservations.map
      (fun r => if r.id == id then { r with status := ReservationStatus.cancelled } else r)
        = db.reservations := by
    rw [List.all_eq_true] at h
    have hcongr := List.map_congr_left (l := db.reservations)
      (f := fun r => if r.id == id then { r with status := ReservationStatus.cancelled } else r)
      (g := fun r => r) ?_
    · rw [hcongr]; simp
    · intro a ha
      have := h a ha
      simp only [bne_iff_ne, ne_eq] at this
      simp [this]
  rw [hmap]

/-- Claim C10 witness: cancelling the unused identifier `zzz` on the store
holding reservation A succeeds without changing anything. -/
theorem C10_cancel_missing_id_success_witness :
    (dbOne6.reservations.all (fun r => r.id != "zzz")) = true
      ∧ cancelReservation dbOne6 "zzz" = { db := dbOne6, success := true, error := none } := by
  refine ⟨by decide, ?_⟩
  exact C10_cancel_missing_id_success dbOne6 "zzz" (by decide)

/-- Claim C2 counterexample: with `total_seats = 10` and exactly one
confirmed reservation A for a party of 6 at the slot, updating A's party
size to 8 at the same slot does NOT succeed — the re-run check counts A's
own 6 seats (there is no `excludeReservationId` in the source), so the
update fails reporting 4 remaining seats. -/
theorem C2_counterexample_update_6_to_8_fails :
    r10.total_seats = some 10
      ∧ dbOne6.reservations = [resA6]
      ∧ resA6.party_size = 6
      ∧ (updateReservation dbOne6 "A" { party_size := some 8 }).data = none
      ∧ (updateReservation dbOne6 "A" { party_size := some 8 }).error
          = some "Not enough seats available. 4 seats remaining." := by
  refine ⟨by rfl, by rfl, by rfl, by decide, by decide⟩

/-- Claim C2 amended: `updateReservation` re-runs the availability check
WITHOUT excluding the updated reservation's own prior contribution: the
booked-seat sum is taken over all non-cancelled reservations at the current
slot, the updated one included, so a party-size change fails whenever that
full sum plus the new party size exceeds the capacity — in particular the
6-to-8 update of the spec's scenario fails reporting 4 remaining seats. -/
theorem C2_update_does_not_exclude_self (db : DB) (id : String)
    (current : Reservation) (restaurant : Restaurant) (p : Int)
    (hcur : getReservationById db id = some current)
    (hres : findRestaurant db current.restaurant_id = some restaurant)
    (hp : p ≠ 0)
    (hover : jsOrZero restaurant.total_seats
        < totalBookedAt db current.restaurant_id current.reservation_date
            current.reservation_time + p) :
    updateReservation db id { party_size := some p }
      = { db := db
          data := none
          error := some (notEnoughSeatsMsg (jsOrZero restaurant.total_seats
              - totalBookedAt db current.restaurant_id current.reservation_date
                  current.reservation_time)) } := by
  have htouch : touchesSlotFields { party_size := some p } = true := by
    simp [touchesSlotFields, truthyStr, truthyInt, hp]
  have hmerge : mergedCheckOf { party_size := some p } current
      = { date := current.reservation_date
          time := current.reservation_time
          party_size := p
          restaurant_id := current.restaurant_id } := by
    simp [mergedCheckOf, jsOrString, jsOrInt, hp]
  have hcheck : checkAvailability db (mergedCheckOf { party_size := some p } current)
      = { available := false
          reason := some (notEnoughSeatsMsg (jsOrZero restaurant.total_seats
              - totalBookedAt db current.restaurant_id current.reservation_date
                  current.reservation_time))
          current_bookings := some (totalBookedAt db current.restaurant_id
              current.reservation_date current.reservation_time)
          total_seats := some (jsOrZero restaurant.total_seats) } := by
    rw [hmerge]
    unfold checkAvailability
    dsimp only
    rw [hres]
    dsimp only
    rw [if_pos (by omega)]
  unfold updateReservation
  rw [htouch, hcur]
  dsimp only
  rw [hcheck]
  dsimp only
  rw [jsOrString_some_of_ne _ _ (notEnoughSeatsMsg_ne_empty _)]
  simp

/-- Claim C2 amended witness: the spec scenario, settled the way the code
settles it. -/
theorem C2_update_does_not_exclude_self_witness :
    getReservationById dbOne6 "A" = some resA6
      ∧ findRestaurant dbOne6 "r1" = some r10
      ∧ updateReservation dbOne6 "A" { party_size := some 8 }
          = { db := dbOne6, data := none, error := some (notEnoughSeatsMsg 4) } := by
  refine ⟨by rfl, by rfl, ?_⟩
  have h := C2_update_does_not_exclude_self dbOne6 "A" resA6 r10 8
    (by rfl) (by rfl) (by decide) (by decide)
  exact h.trans (by decide)

/-- Claim C7 counterexample: a patch whose only slot field is
`party_size: 0` touches the party size, and the reservation is absent, yet
`updateReservation` does not fail with the `'Reservation not found'` guard:
`0` is falsy, so the capacity-check branch (and its load of the current
record) is skipped and the blind update's store error surfaces instead. -/
theorem C7_counterexample_party_zero_skips_check :
    patchZero.party_size = some 0
      ∧ getReservationById dbTenEmpty "x" = none
      ∧ (updateReservation dbTenEmpty "x" patchZero).error ≠ some "Reservation not found"
      ∧ (updateReservation dbTenEmpty "x" patchZero).error = some noRowsUpdateMessage := by
  refine ⟨by rfl, by rfl, by decide, by decide⟩

/-- Claim C7 amended: `updateReservation` runs the capacity check exactly
when the patch carries a TRUTHY date, time or party size (non-empty string,
non-zero number): in that case it fails with `'Reservation not found'`
(applying no patch) when the reservation is absent and fails with the
unavailability reason (applying no patch) when the merged fields are
unavailable, and otherwise — including every patch with no truthy slot
field, such as status or contact-detail edits or a `party_size: 0` — the
patch is applied directly by the unconditional update with no capacity
check. -/
theorem C7_truthy_guard_behavior (db : DB) (id : String)
    (input : UpdateReservationInput) :
    (touchesSlotFields input = true → getReservationById db id = none →
        updateReservation db id input
          = { db := db, data := none, error := some "Reservation not found" })
      ∧ (∀ current, touchesSlotFields input = true →
          getReservationById db id = some current →
          (checkAvailability db (mergedCheckOf input current)).available = false →
          updateReservation db id input
            = { db := db
                data := none
                error := some (jsOrString
                    (checkAvailability db (mergedCheckOf input current)).reason
                    "New time slot not available") })
      ∧ (∀ current, touchesSlotFields input = true →
          getReservationById db id = some current →
          (checkAvailability db (mergedCheckOf input current)).available = true →
          updateReservation db id input = doUpdate db id input)
      ∧ (touchesSlotFields input = false →
          updateReservation db id input = doUpdate db id input) := by
  refine ⟨?_, ?_, ?_, ?_⟩
  · intro htouch hnone
    unfold updateReservation
    rw [htouch, hnone]
    simp
  · intro current htouch hcur hav
    unfold updateReservation
    rw [htouch, hcur]
    dsimp only
    rw [hav]
    simp
  · intro current htouch hcur hav
    unfold updateReservation
    rw [htouch, hcur]
    dsimp only
    rw [hav]
    simp
  · intro htouch
    unfold updateReservation
    rw [htouch]
    simp

/-- Claim C7 amended witness: all four behaviors at concrete inputs — a
truthy patch on a missing id, an unavailable truthy patch, an available
truthy patch, and a contact-only patch. -/
theorem C7_truthy_guard_behavior_witness :
    updateReservation dbTenEmpty "x" patchEight
        = { db := dbTenEmpty, data := none, error := some "Reservation not found" }
      ∧ (updateReservation dbOne6 "A" patchEight).error = some (notEnoughSeatsMsg 4)
      ∧ updateReservation dbOne6 "A" patchFour = doUpdate dbOne6 "A" patchFour
      ∧ updateReservation dbOne6 "A" patchContact = doUpdate dbOne6 "A" patchContact
      ∧ (doUpdate dbOne6 "A" patchContact).error = none := by
  have h1 := (C7_truthy_guard_behavior dbTenEmpty "x" patchEight).1 (by decide) (by rfl)
  have h2 := (C7_truthy_guard_behavior dbOne6 "A" patchEight).2.1 resA6
    (by decide) (by rfl) (by decide)
  have h3 := (C7_truthy_guard_behavior dbOne6 "A" patchFour).2.2.1 resA6
    (by decide) (by rfl) (by decide)
  have h4 := (C7_truthy_guard_behavior dbOne6 "A" patchContact).2.2.2 (by decide)
  exact ⟨h1, by rw [h2]; decide, h3, h4, by decide⟩

theorem summaryFold_total_reservations (rows : List Reservation)
    (init : ReservationSummary) :
    (rows.foldl summaryStep init).total_reservations = init.total_reservations := by
  induction rows generalizing init with
  | nil => rfl
  | cons r rows ih =>
    rw [List.foldl_cons, ih]
    cases hs : r.status <;> simp [summaryStep, hs]

theorem summaryFold_confirmed (rows : List Reservation) (init : ReservationSummary) :
    (rows.foldl summaryStep init).confirmed
      = init.confirmed + (rows.filter (fun r =>
          r.status == ReservationStatus.confirmed
            || r.status == ReservationStatus.pending)).length := by
  induction rows generalizing init with
  | nil => simp
  | cons r rows ih =>
    rw [List.foldl_cons, ih]
    cases hs : r.status <;> simp [summaryStep, hs, List.filter_cons] <;> omega

theorem summaryFold_cancelled (rows : List Reservation) (init : ReservationSummary) :
    (rows.foldl summaryStep init).cancelled
      = init.cancelled + (rows.filter (fun r =>
          r.status == ReservationStatus.cancelled)).length := by
  induction rows generalizing init with
  | nil => simp
  | cons r rows ih =>
    rw [List.foldl_cons, ih]
    cases hs : r.status <;> simp [summaryStep, hs, List.filter_cons] <;> omega

theorem summaryFold_completed (rows : List Reservation) (init : ReservationSummary) :
    (rows.foldl summaryStep init).completed
      = init.completed + (rows.filter (fun r =>
          r.status == ReservationStatus.completed)).length := by
  induction rows generalizing init with
  | nil => simp
  | cons r rows ih =>
    rw [List.foldl_cons, ih]
    cases hs : r.status <;> simp [summaryStep, hs, List.filter_cons] <;> omega

theorem summaryFold_no_shows (rows : List Reservation) (init : ReservationSummary) :
    (rows.foldl summaryStep init).no_shows
      = init.no_shows + (rows.filter (fun r =>
          r.status == ReservationStatus.noShow)).length := by
  induction rows generalizing init with
  | nil => simp
  | cons r rows ih =>
    rw [List.foldl_cons, ih]
    cases hs : r.status <;> simp [summaryStep, hs, List.filter_cons] <;> omega

theorem summaryFold_total_guests (rows : List Reservation) (init : ReservationSummary) :
    (rows.foldl summaryStep init).total_guests
      = init.total_guests + (rows.map (fun r => r.party_size)).sum := by
  induction rows generalizing init with
  | nil => simp
  | cons r rows ih =>
    rw [List.foldl_cons, ih]
    cases hs : r.status <;> simp [summaryStep, hs] <;> omega

theorem statusBuckets_partition (rows : List Reservation) :
    (rows.filter (fun r => r.status == ReservationStatus.confirmed
        || r.status == ReservationStatus.pending)).length
      + (rows.filter (fun r => r.status == ReservationStatus.cancelled)).length
      + (rows.filter (fun r => r.status == ReservationStatus.completed)).length
      + (rows.filter (fun r => r.status == ReservationStatus.noShow)).length
      = rows.length := by
  induction rows with
  | nil => rfl
  | cons r rows ih =>
    cases hs : r.status <;> simp [List.filter_cons, hs] <;> omega

/-- Claim C9: `getReservationSummary` counts each returned reservation in
exactly one status bucket — `confirmed` and `pending` share one bucket,
`cancelled`, `completed` and `no-show` each have their own, and the four
buckets partition the returned rows — while `total_guests` sums
`party_size` over all returned rows regardless of status. -/
theorem C9_summary_buckets (db : DB) (rid : String)
    (date_from date_to : Option String) :
    (getReservationSummary db rid date_from date_to).confirmed
        = ((summaryRows db rid date_from date_to).filter (fun r =>
            r.status == ReservationStatus.confirmed
              || r.status == ReservationStatus.pending)).length
      ∧ (getReservationSummary db rid date_from date_to).cancelled
          = ((summaryRows db rid date_from date_to).filter (fun r =>
              r.status == ReservationStatus.cancelled)).length
      ∧ (getReservationSummary db rid date_from date_to).completed
          = ((summaryRows db rid date_from date_to).filter (fun r =>
              r.status == ReservationStatus.completed)).length
      ∧ (getReservationSummary db rid date_from date_to).no_shows
          = ((summaryRows db rid date_from date_to).filter (fun r =>
              r.status == ReservationStatus.noShow)).length
      ∧ (getReservationSummary db rid date_from date_to).confirmed
          + (getReservationSummary db rid date_from date_to).cancelled
          + (getReservationSummary db rid date_from date_to).completed
          + (getReservationSummary db rid date_from date_to).no_shows
          = (summaryRows db rid date_from date_to).length
      ∧ (getReservationSummary db rid date_from date_to).total_reservations
          = (summaryRows db rid date_from date_to).length
      ∧ (getReservationSummary db rid date_from date_to).total_guests
          = ((summaryRows db rid date_from date_to).map (fun r => r.party_size)).sum := by
  have hconf := summaryFold_confirmed (summaryRows db rid date_from date_to)
    { total_reservations := (summaryRows db rid date_from date_to).length
      confirmed := 0, cancelled := 0, completed := 0, no_shows := 0, total_guests := 0 }
  have hcanc := summaryFold_cancelled (summaryRows db rid date_from date_to)
    { total_reservations := (summaryRows db rid date_from date_to).length
      confirmed := 0, cancelled := 0, completed := 0, no_shows := 0, total_guests := 0 }
  have hcomp := summaryFold_completed (summaryRows db rid date_from date_to)
    { total_reservations := (summaryRows db rid date_from date_to).length
      confirmed := 0, cancelled := 0, completed := 0, no_shows := 0, total_guests := 0 }
  have hns := summaryFold_no_shows (summaryRows db rid date_from date_to)
    { total_reservations := (summaryRows db rid date_from date_to).length
      confirmed := 0, cancelled := 0, completed := 0, no_shows := 0, total_guests := 0 }
  have htr := summaryFold_total_reservations (summaryRows db rid date_from date_to)
    { total_reservations := (summaryRows db rid date_from date_to).length
      confirmed := 0, cancelled := 0, completed := 0, no_shows := 0, total_guests := 0 }
  have htg := summaryFold_total_guests (summaryRows db rid date_from date_to)
    { total_reservations := (summaryRows db rid date_from date_to).length
      confirmed := 0, cancelled := 0, completed := 0, no_shows := 0, total_guests := 0 }
  have hpart := statusBuckets_partition (summaryRows db rid date_from date_to)
  unfold getReservationSummary
  dsimp only
  simp only [hconf, hcanc, hcomp, hns, htr, htg, Nat.zero_add, Int.zero_add]
  refine ⟨trivial, trivial, trivial, trivial, ?_, trivial, trivial⟩
  omega

theorem createReservation_restaurants (db : DB) (input : CreateReservationInput)
    (newId : String) :
    (createReservation db input newId).db.restaurants = db.restaurants := by
  unfold createReservation
  by_cases h : (checkAvailability db (createCheckOf input)).available = true
  · simp [h]
  · simp only [Bool.not_eq_true] at h
    simp [h]

theorem runAtomic_restaurants (db : DB) (op : AtomicOp) :
    (runAtomic db op).restaurants = db.restaurants := by
  cases op with
  | create input newId => exact createReservation_restaurants db input newId
  | cancel id => rfl

theorem findRestaurant_runAtomic (db : DB) (op : AtomicOp) (rid : String) :
    findRestaurant (runAtomic db op) rid = findRestaurant db rid := by
  unfold findRestaurant
  rw [runAtomic_restaurants]

theorem slotSum_append_one (rid date time : String) (l : List Reservation)
    (r : Reservation) :
    slotSum rid date time (l ++ [r])
      = slotSum rid date time l
          + (if matchesSlot rid date time r then r.party_size else 0) := by
  rw [slotSum_append, slotSum_cons, slotSum_nil]
  omega

theorem slotSum_cancel_le (rid date time id : String) (l : List Reservation)
    (h : ∀ r ∈ l, 0 ≤ r.party_size) :
    slotSum rid date time (l.map (fun r =>
        if r.id == id then { r with status := ReservationStatus.cancelled } else r))
      ≤ slotSum rid date time l := by
  induction l with
  | nil => simp [slotSum]
  | cons a l ih =>
    rw [List.map_cons, slotSum_cons, slotSum_cons]
    have ha : 0 ≤ a.party_size := h a (by simp)
    have ihl := ih (fun r hr => h r (by simp [hr]))
    by_cases hid : a.id == id
    · rw [if_pos hid]
      have hmneg : ¬ (matchesSlot rid date time
          { a with status := ReservationStatus.cancelled } = true) := by
        simp [matchesSlot]
      rw [if_neg hmneg]
      have hite : 0 ≤ (if matchesSlot rid date time a then a.party_size else 0) := by
        split
        · exact ha
        · exact le_refl 0
      omega
    · rw [if_neg hid]
      omega

theorem checkAvailability_available_imp (db : DB) (check : AvailabilityCheck)
    (h : (checkAvailability db check).available = true) :
    ∃ restaurant, findRestaurant db check.restaurant_id = some restaurant
      ∧ totalBookedAt db check.restaurant_id check.date check.time
          + check.party_size ≤ jsOrZero restaurant.total_seats := by
  unfold checkAvailability at h
  cases hf : findRestaurant db check.restaurant_id with
  | none => rw [hf] at h; simp at h
  | some restaurant =>
    rw [hf] at h
    dsimp only at h
    refine ⟨restaurant, rfl, ?_⟩
    by_cases hgt : totalBookedAt db check.restaurant_id check.date check.time
        + check.party_size > jsOrZero restaurant.total_seats
    · rw [if_pos hgt] at h
      simp at h
    · omega

theorem createReservation_db_of_available (db : DB) (input : CreateReservationInput)
    (newId : String)
    (h : (checkAvailability db (createCheckOf input)).available = true) :
    (createReservation db input newId).db
      = { db with reservations := db.reservations ++ [newReservationOf input newId] } := by
  simp [createReservation, h]

theorem createReservation_db_of_unavailable (db : DB) (input : CreateReservationInput)
    (newId : String)
    (h : (checkAvailability db (createCheckOf input)).available = false) :
    (createReservation db input newId).db = db := by
  simp [createReservation, h]

theorem create_preserves_slot_bound (db : DB) (input : CreateReservationInput)
    (newId : String) (rid date time : String) (restaurant : Restaurant) (s : Int)
    (hfound : findRestaurant db rid = some restaurant)
    (hseats : restaurant.total_seats = some s)
    (hinv : totalBookedAt db rid date time ≤ s) :
    totalBookedAt (createReservation db input newId).db rid date time ≤ s := by
  by_cases hav : (checkAvailability db (createCheckOf input)).available = true
  · rw [createReservation_db_of_available db input newId hav]
    rw [totalBookedAt_eq_slotSum]
    dsimp only
    rw [slotSum_append_one]
    rw [totalBookedAt_eq_slotSum] at hinv
    by_cases hm : matchesSlot rid date time (newReservationOf input newId) = true
    · rw [if_pos hm]
      have hm2 := hm
      simp only [matchesSlot, newReservationOf, Bool.and_eq_true, bne_iff_ne, ne_eq,
        beq_iff_eq] at hm2
      obtain ⟨⟨⟨h1, h2⟩, h3⟩, _⟩ := hm2
      obtain ⟨restaurant2, hf2, hb2⟩ :=
        checkAvailability_available_imp db (createCheckOf input) hav
      simp only [createCheckOf] at hf2 hb2
      rw [h1] at hf2 hb2
      rw [h2, h3] at hb2
      rw [hfound] at hf2
      have hr2 : restaurant2 = restaurant := (Option.some.inj hf2).symm
      rw [hr2, hseats] at hb2
      have hjz : jsOrZero (some s) = s := rfl
      rw [hjz] at hb2
      rw [totalBookedAt_eq_slotSum] at hb2
      simp only [newReservationOf]
      omega
    · rw [if_neg hm]
      omega
  · simp only [Bool.not_eq_true] at hav
    rw [createReservation_db_of_unavailable db input newId hav]
    exact hinv

theorem cancel_preserves_slot_bound (db : DB) (id : String)
    (rid date time : String) (s : Int)
    (hnn : ∀ r ∈ db.reservations, 0 ≤ r.party_size)
    (hinv : totalBookedAt db rid date time ≤ s) :
    totalBookedAt (cancelReservation db id).db rid date time ≤ s := by
  rw [totalBookedAt_eq_slotSum] at hinv ⊢
  unfold cancelReservation
  dsimp only
  exact le_trans (slotSum_cancel_le rid date time id db.reservations hnn) hinv

theorem runAtomic_party_nonneg (db : DB) (op : AtomicOp)
    (hnn : ∀ r ∈ db.reservations, 0 ≤ r.party_size)
    (hop : opPartyOk op = true) :
    ∀ r ∈ (runAtomic db op).reservations, 0 ≤ r.party_size := by
  cases op with
  | create input newId =>
    intro r hr
    simp only [runAtomic] at hr
    by_cases hav : (checkAvailability db (createCheckOf input)).available = true
    · rw [createReservation_db_of_available db input newId hav] at hr
      dsimp only at hr
      rw [List.mem_append] at hr
      rcases hr with hr | hr
      · exact hnn r hr
      · rw [List.mem_singleton] at hr
        subst hr
        simp only [opPartyOk, decide_eq_true_eq] at hop
        simpa [newReservationOf] using hop
    · simp only [Bool.not_eq_true] at hav
      rw [createReservation_db_of_unavailable db input newId hav] at hr
      exact hnn r hr
  | cancel id =>
    intro r hr
    simp only [runAtomic] at hr
    unfold cancelReservation at hr
    dsimp only at hr
    rw [List.mem_map] at hr
    obtain ⟨a, ha, rfl⟩ := hr
    by_cases hid : a.id == id
    · rw [if_pos hid]
      exact hnn a ha
    · rw [if_neg hid]
      exact hnn a ha

theorem runAtomicOps_cons (db : DB) (op : AtomicOp) (ops : List AtomicOp) :
    runAtomicOps db (op :: ops) = runAtomicOps (runAtomic db op) ops := rfl

/-- Claim C1 amended: for every SEQUENTIAL (non-overlapping) sequence of
`createReservation` / `cancelReservation` calls on a store whose restaurant
has `total_seats` set, with non-negative party sizes (as the data model
requires), the sum of `party_size` over the non-cancelled reservations of
any fixed (restaurant, date, time) slot never exceeds `total_seats`.  (The
companion counterexample shows this fails once create calls overlap: the
check and the insert are separate round-trips.) -/
theorem C1_sequential_invariant (ops : List AtomicOp) (db : DB)
    (rid date time : String) (restaurant : Restaurant) (s : Int)
    (hfound : findRestaurant db rid = some restaurant)
    (hseats : restaurant.total_seats = some s)
    (hops : ops.all opPartyOk = true)
    (hnn : ∀ r ∈ db.reservations, 0 ≤ r.party_size)
    (hinv : totalBookedAt db rid date time ≤ s) :
    totalBookedAt (runAtomicOps db ops) rid date time ≤ s := by
  induction ops generalizing db with
  | nil => exact hinv
  | cons op ops ih =>
    rw [runAtomicOps_cons]
    rw [List.all_cons, Bool.and_eq_true] at hops
    obtain ⟨hop, hops⟩ := hops
    apply ih (runAtomic db op)
    · rw [findRestaurant_runAtomic]
      exact hfound
    · exact hops
    · exact runAtomic_party_nonneg db op hnn hop
    · cases op with
      | create input newId =>
        exact create_preserves_slot_bound db input newId rid date time restaurant s
          hfound hseats hinv
      | cancel id =>
        exact cancel_preserves_slot_bound db id rid date time s hnn hinv

/-- Claim C1 amended witness: create a party of 6, cancel it, create a
party of 5 — sequentially the slot stays within the 10 seats. -/
theorem C1_sequential_invariant_witness :
    findRestaurant dbTenEmpty "r1" = some r10
      ∧ r10.total_seats = some 10
      ∧ seqOps.all opPartyOk = true
      ∧ totalBookedAt dbTenEmpty "r1" "2025-11-22" "19:00" ≤ 10
      ∧ totalBookedAt (runAtomicOps dbTenEmpty seqOps) "r1" "2025-11-22" "19:00" ≤ 10 := by
  refine ⟨by rfl, by rfl, by decide, by decide, ?_⟩
  exact C1_sequential_invariant seqOps dbTenEmpty "r1" "2025-11-22" "19:00" r10 10
    (by rfl) (by rfl) (by decide) (by intro r hr; simp [dbTenEmpty] at hr) (by decide)

/-- Claim C1 counterexample: the invariant does NOT survive concurrent
create attempts.  Two `createReservation` calls for parties of 6 race on
the empty 10-seat restaurant; both availability checks run before either
insert (the interleaving the source's two unguarded round-trips allow),
both pass, both rows are inserted, and the non-cancelled sum at the slot
reaches 12 > 10. -/
theorem C1_counterexample_concurrent_race :
    findRestaurant raceFinal.db "r1" = some r10
      ∧ r10.total_seats = some 10
      ∧ totalBookedAt raceFinal.db "r1" "2025-11-22" "19:00" = 12
      ∧ ¬ (totalBookedAt raceFinal.db "r1" "2025-11-22" "19:00"
            ≤ jsOrZero r10.total_seats) := by
  refine ⟨by rfl, by rfl, by decide, by decide⟩

end FillsinChatbot
